import Mathlib

/-!
Verification of the OrchestratAI orchestration core.

This file gives a shallow embedding, in Lean 4, of the routing, fallback,
caching and response-assembly logic of the OrchestratAI backend
(`src/agents/orchestrator.py`, `src/agents/workers/*.py`,
`src/cache/redis_cache.py`, `src/models/*.py`), and proves properties of
that embedding.

Modelling conventions:
* Python dictionaries with a closed set of consulted keys become Lean
  structures; the polymorphic `RetrievalLog.data` dict becomes a tagged
  union (`LogData`), one tag per construction site in the source.
* Costs and confidences (Python floats) are embedded as exact rationals;
  embedding vectors and cosine similarity scores are embedded as exact
  reals, since the cosine computation involves square roots.
* Environment-supplied values (UUIDs, wall-clock timestamps, measured
  latencies, LLM completions, the JSON parser) are either fixed
  placeholder strings or explicit parameters of the embedded functions.
* `async` functions are pure functions of the values returned by their
  awaited collaborator calls.
-/

namespace OrchestratAI

/-! ## Data model (`src/models/enums.py`, `src/models/schemas.py`) -/

/-- `AgentId` from `src/models/enums.py`. -/
inductive AgentId
  | orchestrator
  | billing
  | technical
  | policy
deriving DecidableEq, Repr

/-- `AgentStatus`: the values used by the orchestrator and workers
(`idle`, `routing`, `active`, `complete`, `error`; the spec's §3 status
set). -/
inductive AgentStatus
  | idle
  | routing
  | active
  | complete
  | error
deriving DecidableEq, Repr

/-- `LogType` from `src/models/enums.py`. -/
inductive LogType
  | routing
  | vector_search
  | cache
  | documents
deriving DecidableEq, Repr, BEq

/-- `LogStatus` from `src/models/enums.py`. -/
inductive LogStatus
  | success
  | warning
  | error
deriving DecidableEq, Repr

/-- `cache_status` literal of `ChatMetrics` (`"hit" | "miss" | "none"`). -/
inductive CacheStatus
  | hit
  | miss
  | none
deriving DecidableEq, Repr

/-- `ChatMetrics` from `src/models/schemas.py`. -/
structure ChatMetrics where
  tokensUsed : Nat
  cost : ℚ
  latency : Nat
  cache_status : CacheStatus
deriving DecidableEq, Repr

/-- The document-chunk metadata keys the core actually consults
(`metadata.get("source")`, `metadata.get("page")`). -/
structure ChunkMeta where
  source : Option String
  page : Option Nat
deriving DecidableEq, Repr

/-- `DocumentChunk` from `src/models/schemas.py`. -/
structure DocumentChunk where
  id : Nat
  content : String
  similarity : ℚ
  source : String
  metadata : Option ChunkMeta
deriving DecidableEq, Repr

/-- The polymorphic `RetrievalLog.data` dict, as a tagged union with one
tag per construction site in the source (the spec's §9 design note). -/
inductive LogData
  | routingDecision (intent : String) (confidence : ℚ) (targetAgent : String)
      (reasoning : String)
  | fallback (attemptedAgents : List String) (successfulAgent : String)
      (fallbackReason : String)
  | allFailed (attemptedAgents : List String) (error : String)
  | cacheHit (latencyMs : Nat) (similarityScore : ℚ) (savedCost : ℚ)
  | cacheMiss (latencyMs : Nat)
  | vectorSearch (collection : String) (chunksRetrieved : Nat) (latencyMs : Nat)
  | directInfo (agent : String) (mode : String) (latencyMs : Nat)
deriving DecidableEq, Repr

/-- `RetrievalLog` from `src/models/schemas.py`. -/
structure RetrievalLog where
  id : String
  type : LogType
  title : String
  data : LogData
  timestamp : String
  status : LogStatus
  chunks : Option (List DocumentChunk)
deriving DecidableEq, Repr

/-- The `agent_status` dict: every construction site in the source builds
it with exactly the four known agent ids as keys. -/
structure AgentStatusMap where
  orchestrator : AgentStatus
  billing : AgentStatus
  technical : AgentStatus
  policy : AgentStatus
deriving DecidableEq, Repr

/-- `ChatResponse` from `src/models/schemas.py`. -/
structure ChatResponse where
  message : String
  agent : AgentId
  confidence : ℚ
  logs : List RetrievalLog
  metrics : ChatMetrics
  agent_status : AgentStatusMap
deriving DecidableEq, Repr

/-- `LLMCallResult` (`src/llm/types.py`): the fields consumed by the
orchestration core. -/
structure LLMCallResult where
  content : String
  model : String
  tokens_input : Nat
  tokens_output : Nat
  cost : ℚ
deriving DecidableEq, Repr

/-! ## Python string primitives

The embedded code manipulates strings through a handful of Python
primitives (`in`, `str.lower`, `str.strip`, `str.startswith`,
`str.split`, slicing).  They are modelled here structurally over the
underlying character lists, so that every embedded function reduces in
the kernel. -/

/-- Python's `str.lower`, characterwise. -/
def lowerStr (s : String) : String :=
  ⟨s.data.map Char.toLower⟩

/-- Python's substring test `needle in hay`: some tail of `hay` starts
with `needle`. -/
def strContains (hay needle : String) : Bool :=
  hay.data.tails.any (fun t => needle.data.isPrefixOf t)

/-- Python's `hay.startswith(pre)`. -/
def startsWithStr (s pre : String) : Bool :=
  pre.data.isPrefixOf s.data

/-- Whitespace recognised by Python's `str.strip`. -/
def isSpaceChar (c : Char) : Bool :=
  c = ' ' || c = '\t' || c = '\n' || c = '\r'

/-- Python's `str.strip`: drop whitespace from both ends. -/
def trimStr (s : String) : String :=
  ⟨((s.data.dropWhile isSpaceChar).reverse.dropWhile isSpaceChar).reverse⟩

/-- Python's slice `s[n:]`, characterwise. -/
def strDropChars (s : String) (n : Nat) : String :=
  ⟨s.data.drop n⟩

/-- The characters before the first occurrence of `sep`, or the whole
list when `sep` does not occur (helper for Python's `str.split`). -/
def takeUntilSep (sep : List Char) : List Char → List Char
  | [] => []
  | c :: rest =>
    if sep.isPrefixOf (c :: rest) then []
    else c :: takeUntilSep sep rest

/-- Python's `content.split("```")[1]` under the guard
`content.startswith("```")`: the text between the first fence and the
next fence (or the end of the string). -/
def splitFencePart1 (content : String) : String :=
  ⟨takeUntilSep "```".data (content.data.drop 3)⟩

/-! ## Router (`decide_route`, `src/agents/orchestrator.py`) -/

/-- The complexity-heuristic keyword list of `decide_route`. -/
def complexityKeywords : List String :=
  ["explain", "compare", "analyze", "how does", "difference between"]

/-- The simple-chat-heuristic keyword list of `decide_route`. -/
def simpleChatKeywords : List String :=
  ["hello", "hi", "hey", "thanks", "thank you", "bye", "goodbye"]

/-- Complexity heuristic of `decide_route`: message longer than 100
characters, or the lowercased message contains a complexity keyword. -/
def is_complex (message : String) : Bool :=
  decide (message.length > 100)
    || complexityKeywords.any (fun kw => strContains (lowerStr message) kw)

/-- Simple-chat heuristic of `decide_route`: the lowercased message
contains a greeting/farewell keyword. -/
def is_simple_chat (message : String) : Bool :=
  simpleChatKeywords.any (fun kw => strContains (lowerStr message) kw)

/-- The six route names returned by `decide_route`. -/
inductive Route
  | guide
  | delegate_hybrid
  | delegate_rag
  | delegate_billing
  | delegate_policy
  | delegate_direct
deriving DecidableEq, Repr

/-- `decide_route` (`src/agents/orchestrator.py`, lines 147-184): the
intent is the string taken from the classifier's analysis dict, the
message is the raw text of the latest user message. -/
def decide_route (intent : String) (message : String) : Route :=
  if intent = "META_QUESTION" then
    .guide
  else if intent = "COMPLEX_QUESTION" ∨ (intent = "DOMAIN_QUESTION" ∧ is_complex message) then
    .delegate_hybrid
  else if intent = "SIMPLE_CHAT" ∨ is_simple_chat message then
    .delegate_direct
  else if intent = "PRICING_QUESTION" then
    .delegate_billing
  else if intent = "POLICY_QUESTION" then
    .delegate_policy
  else if intent = "DOMAIN_QUESTION" then
    .delegate_rag
  else
    .delegate_direct

/-! ## Fallback executor (`execute_with_fallback`, `src/agents/orchestrator.py`) -/

/-- The outcome of awaiting one strategy callable: a `ChatResponse`, or a
raised exception. -/
inductive StrategyOutcome
  | ok (response : ChatResponse)
  | fail
deriving DecidableEq, Repr

/-- Whether the outcome is a raised exception. -/
def StrategyOutcome.failed : StrategyOutcome → Bool
  | .ok _ => false
  | .fail => true

/-- The synthetic provenance log prepended when a fallback succeeded
after earlier failures (UUID and timestamp are environment-supplied and
held fixed). -/
def mk_fallback_log (attempted : List String) (agentName : String) : RetrievalLog where
  id := "uuid-fallback"
  type := .routing
  title := "Fallback chain used: " ++ String.intercalate " → " (attempted ++ [agentName])
  data := .fallback attempted agentName "previous_agents_failed"
  timestamp := "now"
  status := .success
  chunks := none

/-- The fixed user-facing apology of the terminal error response. -/
def apology_message : String :=
  "I apologize, but I\x27m experiencing technical difficulties. Please try again later."

/-- The single error-status routing log of the terminal error response. -/
def error_log (attempted : List String) : RetrievalLog where
  id := "uuid-error"
  type := .routing
  title := "All agents failed"
  data := .allFailed attempted ("All agents failed: " ++ String.intercalate ", " attempted)
  timestamp := "now"
  status := .error
  chunks := none

/-- The terminal error response built when every strategy in the chain
raised. -/
def error_response (attempted : List String) : ChatResponse where
  message := apology_message
  agent := .orchestrator
  confidence := 0
  logs := [error_log attempted]
  metrics := { tokensUsed := 0, cost := 0, latency := 0, cache_status := .none }
  agent_status := { orchestrator := .idle, billing := .idle, technical := .idle, policy := .idle }

/-- `execute_with_fallback` (`src/agents/orchestrator.py`, lines
281-362): try each `(name, strategy)` pair in order; on the first
success, prepend a fallback log when earlier strategies were attempted;
on a raise, record the name and continue; when the chain is exhausted,
return the terminal error response. -/
def execute_with_fallback : List (String × StrategyOutcome) → List String → ChatResponse
  | [], attempted => error_response attempted
  | (name, .ok r) :: _, attempted =>
    if attempted.isEmpty then r
    else { r with logs := mk_fallback_log attempted name :: r.logs }
  | (name, .fail) :: rest, attempted =>
    execute_with_fallback rest (attempted ++ [name])

/-! ## Worker response builders

Each worker's `run` is an async pipeline of collaborator calls followed
by a pure response assembly.  The assemblies are embedded as functions of
the values the collaborators returned (retrieval results, the LLM call
result, measured latencies). -/

/-- The intent-analysis record produced by the classifier
(`{intent, confidence, reasoning}`). -/
structure Analysis where
  intent : String
  confidence : ℚ
  reasoning : String
deriving DecidableEq, Repr

/-- The payload the CAG agent writes to the semantic cache
(`cag_agent.py`, step 6): message, per-call token/cost metrics, and the
write timestamp. -/
structure CachePayload where
  message : String
  tokens_input : Nat
  tokens_output : Nat
  cost : ℚ
  timestamp : ℚ
deriving DecidableEq, Repr

/-- A document returned by the vector-search collaborator: page content
plus the metadata keys the core consults. -/
structure Document where
  page_content : String
  metadata : ChunkMeta
deriving DecidableEq, Repr

/-- Stand-in for Python's `"{:.2f}"` float formatting.  The formatted
text only appears inside log and context strings; no embedded control
flow consults it. -/
def fmt2 (q : ℚ) : String :=
  toString q

/-! ### Direct agent (`direct_agent.py`) -/

/-- The single routing log of the Direct agent (no retrieval logs). -/
def direct_routing_log (llmLatency : Nat) : RetrievalLog where
  id := "uuid-direct"
  type := .routing
  title := "Direct conversational response (no retrieval)"
  data := .directInfo "direct" "conversational" llmLatency
  timestamp := "now"
  status := .success
  chunks := none

/-- `DirectAgent.run` response assembly. -/
def direct_response (result : LLMCallResult) (llmLatency totalLatency : Nat) : ChatResponse where
  message := result.content
  agent := .orchestrator
  confidence := 7/10
  logs := [direct_routing_log llmLatency]
  metrics := { tokensUsed := result.tokens_input + result.tokens_output
               cost := result.cost
               latency := totalLatency
               cache_status := .none }
  agent_status := { orchestrator := .complete, billing := .idle, technical := .idle, policy := .idle }

/-! ### RAG agent (`rag_agent.py`) -/

/-- Distance-to-similarity conversion shared by the RAG and CAG agents:
`max(0, 1 - distance/2)`. -/
def rag_similarity (score : ℚ) : ℚ :=
  max 0 (1 - score / 2)

/-- The document chunks built from scored vector-search results (the
identical comprehension appears in `rag_agent.py` and `cag_agent.py`). -/
def rag_chunks_of (results : List (Document × ℚ)) : List DocumentChunk :=
  results.enum.map fun ir =>
    { id := ir.1
      content := ir.2.1.page_content
      similarity := rag_similarity ir.2.2
      source := ir.2.1.metadata.source.getD "unknown"
      metadata := some ir.2.1.metadata }

/-- The RAG agent's vector-search log (the source additionally embeds
truncated chunk copies in the data dict; the tagged union keeps the
consulted fields). -/
def rag_vector_log (chunks : List DocumentChunk) (retrievalLatency : Nat) : RetrievalLog where
  id := "uuid-rag-vs"
  type := .vector_search
  title := "Retrieved " ++ toString chunks.length ++ " documents from knowledge base"
  data := .vectorSearch "knowledge_base_v1" chunks.length retrievalLatency
  timestamp := "now"
  status := .success
  chunks := some chunks

/-- `RAGAgent.run` response assembly. -/
def rag_response (results : List (Document × ℚ)) (result : LLMCallResult)
    (retrievalLatency totalLatency : Nat) : ChatResponse where
  message := result.content
  agent := .technical
  confidence := 17/20
  logs := [rag_vector_log (rag_chunks_of results) retrievalLatency]
  metrics := { tokensUsed := result.tokens_input + result.tokens_output
               cost := result.cost
               latency := totalLatency
               cache_status := .none }
  agent_status := { orchestrator := .complete, billing := .idle, technical := .complete, policy := .idle }

/-! ### CAG agent (`cag_agent.py`) -/

/-- The cache log of a CAG cache hit. -/
def cag_cache_hit_log (similarity : ℚ) (cacheLatency : Nat) (savedCost : ℚ) : RetrievalLog where
  id := "uuid-cag-cache"
  type := .cache
  title := "Cache hit (similarity: " ++ fmt2 similarity ++ ")"
  data := .cacheHit cacheLatency similarity savedCost
  timestamp := "now"
  status := .success
  chunks := none

/-- `CAGAgent._build_cache_hit_response`: the cached message is returned
with zero tokens, zero cost, `cache_status = hit`, and the agent identity
selected by the intent override. -/
def cag_hit_response (payload : CachePayload) (similarity : ℚ)
    (totalLatency cacheLatency : Nat) (intent : String) : ChatResponse where
  message := payload.message
  agent := if intent = "POLICY_QUESTION" then .policy else .billing
  confidence := 9/10
  logs := [cag_cache_hit_log similarity cacheLatency payload.cost]
  metrics := { tokensUsed := 0, cost := 0, latency := totalLatency, cache_status := .hit }
  agent_status := { orchestrator := .complete
                    billing := if intent = "POLICY_QUESTION" then .idle else .complete
                    technical := .idle
                    policy := if intent = "POLICY_QUESTION" then .complete else .idle }

/-- The CAG agent's vector-search log on a cache miss. -/
def cag_vector_log (chunks : List DocumentChunk) (retrievalLatency : Nat) : RetrievalLog where
  id := "uuid-cag-vs"
  type := .vector_search
  title := "Retrieved " ++ toString chunks.length ++ " documents from knowledge base"
  data := .vectorSearch "knowledge_base_v1" chunks.length retrievalLatency
  timestamp := "now"
  status := .success
  chunks := some chunks

/-- The CAG agent's cache log on a cache miss. -/
def cag_cache_miss_log (cacheLatency : Nat) : RetrievalLog where
  id := "uuid-cag-cache"
  type := .cache
  title := "Cache miss - generated new response"
  data := .cacheMiss cacheLatency
  timestamp := "now"
  status := .success
  chunks := none

/-- `CAGAgent._build_cache_miss_response` assembly. -/
def cag_miss_response (results : List (Document × ℚ)) (result : LLMCallResult)
    (totalLatency cacheLatency retrievalLatency : Nat) (intent : String) : ChatResponse where
  message := result.content
  agent := if intent = "POLICY_QUESTION" then .policy else .billing
  confidence := 17/20
  logs := [cag_vector_log (rag_chunks_of results) retrievalLatency, cag_cache_miss_log cacheLatency]
  metrics := { tokensUsed := result.tokens_input + result.tokens_output
               cost := result.cost
               latency := totalLatency
               cache_status := .miss }
  agent_status := { orchestrator := .complete
                    billing := if intent = "POLICY_QUESTION" then .idle else .complete
                    technical := .idle
                    policy := if intent = "POLICY_QUESTION" then .complete else .idle }

/-! ### Guide mode (`guide_user`, `src/agents/orchestrator.py`) -/

/-- The routing log of a guide-mode response. -/
def guide_routing_log (analysis : Analysis) : RetrievalLog where
  id := "uuid-guide"
  type := .routing
  title := "Orchestrator handled query directly (guide mode)"
  data := .routingDecision analysis.intent analysis.confidence "orchestrator" analysis.reasoning
  timestamp := "now"
  status := .success
  chunks := none

/-- `guide_user` response assembly. -/
def guide_response (analysis : Analysis) (result : LLMCallResult) : ChatResponse where
  message := result.content
  agent := .orchestrator
  confidence := analysis.confidence
  logs := [guide_routing_log analysis]
  metrics := { tokensUsed := result.tokens_input + result.tokens_output
               cost := result.cost
               latency := 500
               cache_status := .none }
  agent_status := { orchestrator := .complete, billing := .idle, technical := .idle, policy := .idle }

/-! ### Hybrid agent (`hybrid_agent.py`)

`HybridAgent.run` is a function of the RAG sub-call's response, the
cache lookup's result `(cached_payload, cache_similarity)`, and its own
completion call's result. -/

/-- Step 3 of `HybridAgent.run`: collect the chunks of the RAG
response's vector-search logs. -/
def hybrid_rag_chunks (ragResponse : ChatResponse) : List DocumentChunk :=
  (ragResponse.logs.filter fun log => log.type = LogType.vector_search).flatMap
    fun log => log.chunks.getD []

/-- Step 4 of `HybridAgent.run`: the pseudo-chunk built from a cache
hit (the source also stores the payload timestamp in the metadata dict;
no embedded control flow consults it). -/
def hybrid_cache_chunks (ragChunksLen : Nat) (cachedPayload : Option CachePayload)
    (cacheSimilarity : ℚ) : List DocumentChunk :=
  match cachedPayload with
  | Option.none => []
  | some payload =>
    [{ id := ragChunksLen
       content := payload.message
       similarity := cacheSimilarity
       source := "cache"
       metadata := some { source := some "semantic_cache", page := Option.none } }]

/-- The `(source, page)` de-duplication key of
`HybridAgent._deduplicate_sources`. -/
def dedup_key (c : DocumentChunk) : String × Option Nat :=
  let m := c.metadata.getD { source := Option.none, page := Option.none }
  (m.source.getD c.source, m.page)

/-- The seen-set loop of `HybridAgent._deduplicate_sources`. -/
def dedup_go : List DocumentChunk → List (String × Option Nat) → List DocumentChunk
  | [], _ => []
  | c :: rest, seen =>
    if dedup_key c ∈ seen then dedup_go rest seen
    else c :: dedup_go rest (dedup_key c :: seen)

/-- `HybridAgent._deduplicate_sources`: merge RAG and cache chunks,
keeping the first occurrence of every `(source, page)` key. -/
def deduplicate_sources (ragChunks cacheChunks : List DocumentChunk) : List DocumentChunk :=
  dedup_go (ragChunks ++ cacheChunks) []

/-- Step 6 of `HybridAgent.run`: `merged_chunks.sort(key=similarity,
reverse=True)` — a stable descending sort on similarity. -/
def rank_chunks (chunks : List DocumentChunk) : List DocumentChunk :=
  List.insertionSort (fun a b => b.similarity ≤ a.similarity) chunks

/-- One document entry of the Hybrid context block. -/
def doc_context_entry (idx : Nat) (c : DocumentChunk) : String :=
  "Document " ++ toString (idx + 1) ++ " (similarity: " ++ fmt2 c.similarity
    ++ ", source: " ++ c.source ++ "):\n" ++ c.content

/-- Step 7 of `HybridAgent.run`: the context parts handed to the single
completion call — the cache insight when the lookup hit, then one entry
per element of `rag_chunks` (the raw RAG chunk list, in retrieval
order). -/
def hybrid_context_parts (ragChunks cacheChunks : List DocumentChunk)
    (cacheSimilarity : ℚ) : List String :=
  (match cacheChunks with
   | [] => []
   | c :: _ =>
     ["Cached Insight (similarity: " ++ fmt2 cacheSimilarity ++ "):\n" ++ c.content])
  ++ ragChunks.enum.map fun ic => doc_context_entry ic.1 ic.2

/-- Modelled from the spec: "merges the two evidence sources ..., ranks
merged chunks by similarity descending, builds a combined context (cache
insight first, then ranked documents)" — the document entries enumerate
the de-duplicated, similarity-ranked merged chunks. -/
def hybrid_context_parts_spec (ragChunks cacheChunks : List DocumentChunk)
    (cacheSimilarity : ℚ) : List String :=
  (match cacheChunks with
   | [] => []
   | c :: _ =>
     ["Cached Insight (similarity: " ++ fmt2 cacheSimilarity ++ "):\n" ++ c.content])
  ++ (rank_chunks (deduplicate_sources ragChunks cacheChunks)).enum.map
      fun ic => doc_context_entry ic.1 ic.2

/-- Step 10 of `HybridAgent.run`: the cache log (hit or miss). -/
def hybrid_cache_log (cachedPayload : Option CachePayload) (cacheSimilarity : ℚ)
    (cacheLatency : Nat) (cacheChunks : List DocumentChunk) : RetrievalLog :=
  match cachedPayload with
  | some payload =>
    { id := "uuid-hybrid-cache"
      type := .cache
      title := "Cache hit (similarity: " ++ fmt2 cacheSimilarity ++ ")"
      data := .cacheHit cacheLatency cacheSimilarity payload.cost
      timestamp := "now"
      status := .success
      chunks := some cacheChunks }
  | Option.none =>
    { id := "uuid-hybrid-cache"
      type := .cache
      title := "Cache miss"
      data := .cacheMiss cacheLatency
      timestamp := "now"
      status := .success
      chunks := Option.none }

/-- Step 10 of `HybridAgent.run`: the RAG response's vector-search logs
followed by the cache log. -/
def hybrid_logs (ragResponse : ChatResponse) (cachedPayload : Option CachePayload)
    (cacheSimilarity : ℚ) (cacheLatency : Nat)
    (cacheChunks : List DocumentChunk) : List RetrievalLog :=
  (ragResponse.logs.filter fun log => log.type = LogType.vector_search)
    ++ [hybrid_cache_log cachedPayload cacheSimilarity cacheLatency cacheChunks]

/-- Step 9 of `HybridAgent.run`, token total.  The source comment reads
"Total tokens includes RAG tokens + our GPT-4o call", but the assignment
`total_tokens = result.tokens_input + result.tokens_output` sums only the
Hybrid agent's own completion call. -/
def hybrid_total_tokens (result : LLMCallResult) : Nat :=
  result.tokens_input + result.tokens_output

/-- Step 9 of `HybridAgent.run`, cost total: RAG sub-call cost plus the
Hybrid agent's own completion cost. -/
def hybrid_total_cost (ragResponse : ChatResponse) (result : LLMCallResult) : ℚ :=
  ragResponse.metrics.cost + result.cost

/-- `HybridAgent.run` response assembly (steps 10-13). -/
def hybrid_response (ragResponse : ChatResponse) (cachedPayload : Option CachePayload)
    (cacheSimilarity : ℚ) (result : LLMCallResult)
    (cacheLatency totalLatency : Nat) : ChatResponse :=
  let cacheChunks :=
    hybrid_cache_chunks (hybrid_rag_chunks ragResponse).length cachedPayload cacheSimilarity
  { message := result.content
    agent := .technical
    confidence := 9/10
    logs := hybrid_logs ragResponse cachedPayload cacheSimilarity cacheLatency cacheChunks
    metrics := { tokensUsed := hybrid_total_tokens result
                 cost := hybrid_total_cost ragResponse result
                 latency := totalLatency
                 cache_status := if cachedPayload.isSome then .hit else .miss }
    agent_status := { orchestrator := .complete, billing := .idle
                      technical := .complete, policy := .idle } }

/-! ## Routing-log decoration (`_add_routing_log`) -/

/-- The guard of `_add_routing_log`: does any log have the ROUTING type
and a title containing `"Fallback"`? -/
def hasFallbackRoutingLog (logs : List RetrievalLog) : Bool :=
  logs.any fun log => decide (log.type = LogType.routing) && strContains log.title "Fallback"

/-- The display-name map of `_add_routing_log`; unknown keys fall back
to the key itself (the source applies `str.title()` to unknown keys,
which no claim consults). -/
def display_name (target : String) : String :=
  if target = "hybrid" then "Hybrid"
  else if target = "rag" then "RAG"
  else if target = "billing" then "Billing (CAG)"
  else if target = "policy" then "Policy (CAG)"
  else if target = "direct" then "Direct"
  else if target = "guide" then "Guide"
  else target

/-- The routing-decision log `_add_routing_log` prepends. -/
def orchestrator_routing_log (analysis : Analysis) (target : String) : RetrievalLog where
  id := "uuid-routing"
  type := .routing
  title := "Orchestrator routed to " ++ display_name target ++ " agent"
  data := .routingDecision analysis.intent analysis.confidence target analysis.reasoning
  timestamp := "now"
  status := .success
  chunks := none

/-- `_add_routing_log` (`src/agents/orchestrator.py`, lines 610-649):
prepend the routing-decision log unless the response already carries a
fallback routing log. -/
def add_routing_log (response : ChatResponse) (analysis : Analysis) (target : String) : ChatResponse :=
  if hasFallbackRoutingLog response.logs then response
  else { response with logs := orchestrator_routing_log analysis target :: response.logs }

/-- A strategy outcome whose response, if any, carries no fallback
routing log (true of every worker-built response). -/
def ok_no_fallback : StrategyOutcome → Bool
  | .ok r => !(hasFallbackRoutingLog r.logs)
  | .fail => true

/-! ## Intent-classifier parsing (`analyse_query`, `src/agents/orchestrator.py`) -/

/-- The content normalisation of `analyse_query` before the JSON parse:
strip whitespace; when the content opens with a code fence, take the text
inside the fence, and additionally drop a `json` language tag. -/
def parse_analysis_content (content : String) : String :=
  let c := trimStr content
  if startsWithStr c "```" then
    let mid := splitFencePart1 c
    if startsWithStr mid "json" then trimStr (strDropChars mid 4) else mid
  else c

/-- The safe-default analysis substituted on a JSON parse failure. -/
def default_analysis : Analysis where
  intent := "DOMAIN_QUESTION"
  confidence := 1/2
  reasoning := "Failed to parse analysis, defaulting to domain question"

/-- The parse step of `analyse_query`, as a function of the completion's
content and of the JSON parser (`json.loads`, an external collaborator:
`some` on success, `none` on `JSONDecodeError`). -/
def analyse_query_parse (jsonParse : String → Option Analysis) (content : String) : Analysis :=
  match jsonParse (parse_analysis_content content) with
  | some a => a
  | Option.none => default_analysis

/-! ## Semantic cache (`src/cache/redis_cache.py`)

Embedding vectors and similarity scores are embedded as exact reals
(idealising `np.float64`), since `np.linalg.norm` takes a square root;
the similarity-dependent definitions are therefore `noncomputable`, and
concrete instances are evaluated through `simp`/`norm_num`. -/

/-- `np.dot` on equal-length vectors. -/
noncomputable def dotP (a b : List ℝ) : ℝ :=
  (List.zipWith (fun x y => x * y) a b).sum

/-- `np.linalg.norm`. -/
noncomputable def normP (a : List ℝ) : ℝ :=
  Real.sqrt (dotP a a)

/-- `cosine_similarity` (`redis_cache.py`, lines 12-27):
`dot(a, b) / (|a| * |b|)`. -/
noncomputable def cosine_similarity (vec1 vec2 : List ℝ) : ℝ :=
  dotP vec1 vec2 / (normP vec1 * normP vec2)

/-- One stored cache entry (`{"embedding": [...], "payload": {...}}`). -/
structure CacheEntry where
  embedding : List ℝ
  payload : CachePayload

/-- `RedisSemanticCache.get`: scan the stored entries in order and
return the first whose cosine similarity with the query embedding meets
the threshold, together with that score; otherwise the miss
`(none, 0.0)`. -/
noncomputable def cache_get :
    List CacheEntry → List ℝ → ℝ → Option CachePayload × ℝ
  | [], _, _ => (Option.none, 0)
  | e :: rest, embedding, threshold =>
    if cosine_similarity e.embedding embedding ≥ threshold then
      (some e.payload, cosine_similarity e.embedding embedding)
    else cache_get rest embedding threshold

/-- `RedisSemanticCache.set`: push the new entry to the front (`LPUSH`)
and trim the store to 1000 entries (`LTRIM 0 999`); the TTL refresh
(`EXPIRE`) touches no modelled state. -/
def cache_set (store : List CacheEntry) (embedding : List ℝ) (payload : CachePayload) :
    List CacheEntry :=
  List.take 1000 ({ embedding := embedding, payload := payload } :: store)

/-- Insert the entries `f 0, f 1, ..., f (n-1)`, in that order, into an
initially empty store. -/
def insert_all (f : ℕ → List ℝ × CachePayload) (n : ℕ) : List CacheEntry :=
  (List.range n).foldl (fun s i => cache_set s (f i).1 (f i).2) []

/-! ## Concrete sample values used by witnesses and counterexamples -/

/-- A concrete successful worker response used by the fallback
witnesses. -/
def sampleResponse : ChatResponse where
  message := "answer from rag"
  agent := .technical
  confidence := 17/20
  logs := []
  metrics := { tokensUsed := 10, cost := 1/100, latency := 5, cache_status := .none }
  agent_status := { orchestrator := .complete, billing := .idle, technical := .complete, policy := .idle }

/-- A concrete RAG sub-call completion result (1500 tokens, cost
0.015). -/
def ragResultSample : LLMCallResult where
  content := "RAG answer"
  model := "claude"
  tokens_input := 700
  tokens_output := 800
  cost := 3/200

/-- A concrete RAG sub-call response, as handed to the Hybrid agent. -/
def ragResponseSample : ChatResponse :=
  rag_response [] ragResultSample 10 1200

/-- A concrete Hybrid completion result (3300 tokens, cost 0.0205). -/
def hybridResultSample : LLMCallResult where
  content := "Hybrid answer"
  model := "gpt-4o"
  tokens_input := 2500
  tokens_output := 800
  cost := 41/2000

/-- A concrete cached payload returned by the semantic cache. -/
def cachePayloadSample : CachePayload where
  message := "Cached response about document B"
  tokens_input := 100
  tokens_output := 50
  cost := 1/2500
  timestamp := 0

/-- A low-similarity RAG chunk (similarity 0), retrieved first. -/
def chunkA : DocumentChunk where
  id := 0
  content := "A"
  similarity := 0
  source := "a.pdf"
  metadata := some { source := some "a.pdf", page := some 1 }

/-- A high-similarity RAG chunk (similarity 1), retrieved second. -/
def chunkB : DocumentChunk where
  id := 1
  content := "B"
  similarity := 1
  source := "b.pdf"
  metadata := some { source := some "b.pdf", page := some 2 }

/-- The concrete insert sequence of the C8 witness: entry `i` carries
embedding `[i]` and a payload stamped `i`. -/
def evictSeq (i : ℕ) : List ℝ × CachePayload :=
  ([(i : ℝ)],
   { message := "m", tokens_input := 0, tokens_output := 0, cost := 0, timestamp := (i : ℚ) })

/-! ## Theorems -/

/-- `strContains` decides the list-infix relation on the underlying
character lists. -/
theorem strContains_iff (hay needle : String) :
    strContains hay needle = true ↔ needle.data <:+: hay.data := by
  simp only [strContains, List.any_eq_true]
  constructor
  · rintro ⟨t, ht, hp⟩
    exact List.infix_iff_prefix_suffix.mpr
      ⟨t, List.isPrefixOf_iff_prefix.mp hp, (List.mem_tails _ _).mp ht⟩
  · intro hinf
    obtain ⟨t, hpre, hsuf⟩ := List.infix_iff_prefix_suffix.mp hinf
    exact ⟨t, (List.mem_tails _ _).mpr hsuf, List.isPrefixOf_iff_prefix.mpr hpre⟩

/-- Claim C3: the route decision applies the classifier intent and the
two raw-text heuristics as an ordered rule list, first match wins:
META_QUESTION gives guide; COMPLEX_QUESTION or (DOMAIN_QUESTION and the
complexity heuristic) gives delegate_hybrid; SIMPLE_CHAT or the
simple-chat heuristic gives delegate_direct; PRICING_QUESTION gives
delegate_billing; POLICY_QUESTION gives delegate_policy; DOMAIN_QUESTION
gives delegate_rag; anything else gives delegate_direct.  The complexity
heuristic is message length over 100 characters or a lowercased-substring
match on the fixed complexity keyword list, and the simple-chat heuristic
is a lowercased-substring match on the greeting/farewell keyword list. -/
theorem decide_route_spec (intent msg : String) :
    (intent = "META_QUESTION" → decide_route intent msg = .guide)
  ∧ (intent ≠ "META_QUESTION" →
      (intent = "COMPLEX_QUESTION" ∨ (intent = "DOMAIN_QUESTION" ∧ is_complex msg = true)) →
      decide_route intent msg = .delegate_hybrid)
  ∧ (intent ≠ "META_QUESTION" →
      ¬(intent = "COMPLEX_QUESTION" ∨ (intent = "DOMAIN_QUESTION" ∧ is_complex msg = true)) →
      (intent = "SIMPLE_CHAT" ∨ is_simple_chat msg = true) →
      decide_route intent msg = .delegate_direct)
  ∧ (intent ≠ "META_QUESTION" →
      ¬(intent = "COMPLEX_QUESTION" ∨ (intent = "DOMAIN_QUESTION" ∧ is_complex msg = true)) →
      ¬(intent = "SIMPLE_CHAT" ∨ is_simple_chat msg = true) →
      intent = "PRICING_QUESTION" →
      decide_route intent msg = .delegate_billing)
  ∧ (intent ≠ "META_QUESTION" →
      ¬(intent = "COMPLEX_QUESTION" ∨ (intent = "DOMAIN_QUESTION" ∧ is_complex msg = true)) →
      ¬(intent = "SIMPLE_CHAT" ∨ is_simple_chat msg = true) →
      intent ≠ "PRICING_QUESTION" →
      intent = "POLICY_QUESTION" →
      decide_route intent msg = .delegate_policy)
  ∧ (intent ≠ "META_QUESTION" →
      ¬(intent = "COMPLEX_QUESTION" ∨ (intent = "DOMAIN_QUESTION" ∧ is_complex msg = true)) →
      ¬(intent = "SIMPLE_CHAT" ∨ is_simple_chat msg = true) →
      intent ≠ "PRICING_QUESTION" →
      intent ≠ "POLICY_QUESTION" →
      intent = "DOMAIN_QUESTION" →
      decide_route intent msg = .delegate_rag)
  ∧ (intent ≠ "META_QUESTION" →
      ¬(intent = "COMPLEX_QUESTION" ∨ (intent = "DOMAIN_QUESTION" ∧ is_complex msg = true)) →
      ¬(intent = "SIMPLE_CHAT" ∨ is_simple_chat msg = true) →
      intent ≠ "PRICING_QUESTION" →
      intent ≠ "POLICY_QUESTION" →
      intent ≠ "DOMAIN_QUESTION" →
      decide_route intent msg = .delegate_direct)
  ∧ (is_complex msg = true ↔
      100 < msg.length ∨ ∃ kw ∈ complexityKeywords, kw.data <:+: (lowerStr msg).data)
  ∧ (is_simple_chat msg = true ↔
      ∃ kw ∈ simpleChatKeywords, kw.data <:+: (lowerStr msg).data) := by
  refine ⟨?_, ?_, ?_, ?_, ?_, ?_, ?_, ?_, ?_⟩
  · intro h1
    rw [decide_route, if_pos h1]
  · intro h1 h2
    rw [decide_route, if_neg h1, if_pos h2]
  · intro h1 h2 h3
    rw [decide_route, if_neg h1, if_neg h2, if_pos h3]
  · intro h1 h2 h3 h4
    rw [decide_route, if_neg h1, if_neg h2, if_neg h3, if_pos h4]
  · intro h1 h2 h3 h4 h5
    rw [decide_route, if_neg h1, if_neg h2, if_neg h3, if_neg h4, if_pos h5]
  · intro h1 h2 h3 h4 h5 h6
    rw [decide_route, if_neg h1, if_neg h2, if_neg h3, if_neg h4, if_neg h5, if_pos h6]
  · intro h1 h2 h3 h4 h5 h6
    rw [decide_route, if_neg h1, if_neg h2, if_neg h3, if_neg h4, if_neg h5, if_neg h6]
  · simp [is_complex, List.any_eq_true, strContains_iff]
  · simp [is_simple_chat, List.any_eq_true, strContains_iff]

/-- Witness for C3: the rule list evaluated at concrete inputs. -/
theorem decide_route_spec_witness :
    decide_route "META_QUESTION" "What can you do" = .guide
  ∧ decide_route "DOMAIN_QUESTION" "explain the refund flow" = .delegate_hybrid
  ∧ decide_route "PRICING_QUESTION" "hello there" = .delegate_direct :=
  ⟨(decide_route_spec "META_QUESTION" "What can you do").1 rfl,
   (decide_route_spec "DOMAIN_QUESTION" "explain the refund flow").2.1
      (by decide) (Or.inr ⟨rfl, by decide⟩),
   (decide_route_spec "PRICING_QUESTION" "hello there").2.2.1
      (by decide) (by decide) (Or.inr (by decide))⟩

/-- A prefix of failing strategies is consumed by appending its names, in
order, to the attempted list. -/
theorem exec_fails_append (pre chain : List (String × StrategyOutcome)) (acc : List String)
    (h : ∀ p ∈ pre, p.2.failed = true) :
    execute_with_fallback (pre ++ chain) acc
      = execute_with_fallback chain (acc ++ pre.map Prod.fst) := by
  induction pre generalizing acc with
  | nil => simp
  | cons p rest ih =>
    obtain ⟨name, o⟩ := p
    have hp : o.failed = true := h (name, o) (by simp)
    cases o with
    | ok r => simp [StrategyOutcome.failed] at hp
    | fail =>
      have step := ih (acc ++ [name]) (fun q hq => h q (List.mem_cons_of_mem _ hq))
      simpa [execute_with_fallback, List.append_assoc] using step

/-- Claim C4: strategies are invoked in the given chain order and each at
most once (the result does not depend on anything after the first
success); every failed strategy's name is recorded, in order, in the
attempted list; the returned response is the successful strategy's
response with exactly one synthetic routing log prepended naming the
attempted agents and the successful one; if the first strategy succeeds,
nothing is prepended. -/
theorem execute_with_fallback_success (pre : List (String × StrategyOutcome))
    (name : String) (r : ChatResponse) (rest : List (String × StrategyOutcome))
    (h : ∀ p ∈ pre, p.2.failed = true) :
    execute_with_fallback ((name, .ok r) :: rest) [] = r
  ∧ (pre ≠ [] →
      execute_with_fallback (pre ++ (name, .ok r) :: rest) []
        = { r with logs := mk_fallback_log (pre.map Prod.fst) name :: r.logs })
  ∧ (mk_fallback_log (pre.map Prod.fst) name).type = .routing
  ∧ (mk_fallback_log (pre.map Prod.fst) name).data
      = .fallback (pre.map Prod.fst) name "previous_agents_failed" := by
  refine ⟨rfl, ?_, rfl, rfl⟩
  intro hne
  rw [exec_fails_append pre _ [] h]
  have hmap : (pre.map Prod.fst).isEmpty = false := by
    cases pre with
    | nil => exact absurd rfl hne
    | cons q qs => rfl
  simp [execute_with_fallback, hmap]

/-- Witness for C4: a two-member chain whose first member fails. -/
theorem execute_with_fallback_success_witness :
    (∀ p ∈ [("hybrid", StrategyOutcome.fail)], p.2.failed = true)
  ∧ execute_with_fallback [("hybrid", .fail), ("rag", .ok sampleResponse)] []
      = { sampleResponse with logs := mk_fallback_log ["hybrid"] "rag" :: sampleResponse.logs } :=
  ⟨by decide, by
    have h := (execute_with_fallback_success [("hybrid", StrategyOutcome.fail)]
      "rag" sampleResponse [] (by decide)).2.1 (by decide)
    simpa using h⟩

/-- Claim C5: when every strategy in the chain raises, the executor
returns (rather than raising) the terminal error response: the fixed
apology message, confidence exactly 0, a single error-status routing log
whose data lists all attempted agents, all-zero metrics with
cache_status none, and an agent-status map marking every known agent
idle. -/
theorem execute_with_fallback_all_fail (chain : List (String × StrategyOutcome))
    (h : ∀ p ∈ chain, p.2.failed = true) :
    execute_with_fallback chain [] = error_response (chain.map Prod.fst)
  ∧ (error_response (chain.map Prod.fst)).message = apology_message
  ∧ (error_response (chain.map Prod.fst)).confidence = 0
  ∧ (error_response (chain.map Prod.fst)).logs = [error_log (chain.map Prod.fst)]
  ∧ (error_log (chain.map Prod.fst)).type = .routing
  ∧ (error_log (chain.map Prod.fst)).status = .error
  ∧ (error_log (chain.map Prod.fst)).data
      = .allFailed (chain.map Prod.fst)
          ("All agents failed: " ++ String.intercalate ", " (chain.map Prod.fst))
  ∧ (error_response (chain.map Prod.fst)).metrics
      = { tokensUsed := 0, cost := 0, latency := 0, cache_status := .none }
  ∧ (error_response (chain.map Prod.fst)).agent_status
      = { orchestrator := .idle, billing := .idle, technical := .idle, policy := .idle } := by
  refine ⟨?_, rfl, rfl, rfl, rfl, rfl, rfl, rfl, rfl⟩
  have step := exec_fails_append chain [] [] h
  simpa [execute_with_fallback] using step

/-- Witness for C5: a chain whose two members both fail. -/
theorem execute_with_fallback_all_fail_witness :
    (∀ p ∈ [("cag", StrategyOutcome.fail), ("direct", StrategyOutcome.fail)], p.2.failed = true)
  ∧ execute_with_fallback [("cag", .fail), ("direct", .fail)] []
      = error_response ["cag", "direct"] :=
  ⟨by decide, by
    simpa using (execute_with_fallback_all_fail
      [("cag", StrategyOutcome.fail), ("direct", StrategyOutcome.fail)] (by decide)).1⟩

/-- Counterexample for C1: a Hybrid run whose cache lookup returned a
payload reports `cache_status = hit`, yet its cost (RAG sub-call cost
plus its own completion cost) and its token count are not zero. -/
theorem hybrid_cache_hit_nonzero_cost_cex :
    (hybrid_response ragResponseSample (some cachePayloadSample) (9/10)
        hybridResultSample 5 800).metrics.cache_status = .hit
  ∧ (hybrid_response ragResponseSample (some cachePayloadSample) (9/10)
        hybridResultSample 5 800).metrics.cost ≠ 0
  ∧ (hybrid_response ragResponseSample (some cachePayloadSample) (9/10)
        hybridResultSample 5 800).metrics.tokensUsed ≠ 0 := by
  refine ⟨rfl, ?_, by decide⟩
  have hcost : (hybrid_response ragResponseSample (some cachePayloadSample) (9/10)
      hybridResultSample 5 800).metrics.cost = 3/200 + 41/2000 := rfl
  rw [hcost]
  norm_num

/-- Claim C1 (amended): the `cache_status = "hit" ⇒ cost 0 ∧ tokens 0`
invariant holds for every strategy except Hybrid.  The CAG agent — the
only strategy that answers from cache without a completion call —
reports hit with zero cost and zero tokens; CAG misses report miss; RAG,
Direct, guide mode and the terminal error response always report none;
the Hybrid agent reports hit exactly when the lookup returned a payload,
but still reports the aggregated RAG-plus-completion cost and its own
completion token count. -/
theorem cache_hit_zero_cost_amended :
    (∀ payload similarity totalLatency cacheLatency intent,
      (cag_hit_response payload similarity totalLatency cacheLatency intent).metrics
        = { tokensUsed := 0, cost := 0, latency := totalLatency, cache_status := .hit })
  ∧ (∀ results result totalLatency cacheLatency retrievalLatency intent,
      (cag_miss_response results result totalLatency cacheLatency
          retrievalLatency intent).metrics.cache_status = .miss)
  ∧ (∀ results result retrievalLatency totalLatency,
      (rag_response results result retrievalLatency totalLatency).metrics.cache_status = .none)
  ∧ (∀ result llmLatency totalLatency,
      (direct_response result llmLatency totalLatency).metrics.cache_status = .none)
  ∧ (∀ analysis result, (guide_response analysis result).metrics.cache_status = .none)
  ∧ (∀ attempted, (error_response attempted).metrics.cache_status = .none)
  ∧ (∀ ragResponse payload cacheSimilarity result cacheLatency totalLatency,
      (hybrid_response ragResponse (some payload) cacheSimilarity result
          cacheLatency totalLatency).metrics.cache_status = .hit
      ∧ (hybrid_response ragResponse (some payload) cacheSimilarity result
          cacheLatency totalLatency).metrics.cost = ragResponse.metrics.cost + result.cost
      ∧ (hybrid_response ragResponse (some payload) cacheSimilarity result
          cacheLatency totalLatency).metrics.tokensUsed
          = result.tokens_input + result.tokens_output)
  ∧ (∀ ragResponse cacheSimilarity result cacheLatency totalLatency,
      (hybrid_response ragResponse Option.none cacheSimilarity result
          cacheLatency totalLatency).metrics.cache_status = .miss) := by
  refine ⟨fun _ _ _ _ _ => rfl, fun _ _ _ _ _ _ => rfl, fun _ _ _ _ => rfl,
    fun _ _ _ => rfl, fun _ _ => rfl, fun _ => rfl,
    fun _ _ _ _ _ _ => ⟨rfl, rfl, rfl⟩, fun _ _ _ _ _ => rfl⟩

/-- Claim C2, evaluated at a failing input: with a RAG sub-call
reporting 1500 tokens and a Hybrid completion of 3300 tokens, the
Hybrid metrics report 3300 tokens — the Hybrid completion alone, not the
claimed RAG-plus-completion sum of 4800 — while the cost is the claimed
sum of the two calls. -/
theorem hybrid_tokens_not_aggregated_bug :
    ragResponseSample.metrics.tokensUsed = 1500
  ∧ (hybrid_response ragResponseSample Option.none 0 hybridResultSample
      5 800).metrics.tokensUsed = 3300
  ∧ (hybrid_response ragResponseSample Option.none 0 hybridResultSample
      5 800).metrics.tokensUsed
      ≠ ragResponseSample.metrics.tokensUsed
          + (hybridResultSample.tokens_input + hybridResultSample.tokens_output)
  ∧ (hybrid_response ragResponseSample Option.none 0 hybridResultSample
      5 800).metrics.cost
      = ragResponseSample.metrics.cost + hybridResultSample.cost := by
  exact ⟨rfl, rfl, by decide, rfl⟩

/-- The synthetic fallback log's title starts with `"Fallback"`, so it
always trips the `_add_routing_log` guard. -/
theorem fallback_title_contains (attempted : List String) (name : String) :
    strContains (mk_fallback_log attempted name).title "Fallback" = true := by
  apply (strContains_iff _ _).mpr
  apply List.IsPrefix.isInfix
  show "Fallback".data <+:
    ("Fallback chain used: " ++ String.intercalate " → " (attempted ++ [name])).data
  have hdecomp : ("Fallback chain used: " : String).data
      = "Fallback".data ++ " chain used: ".data := by decide
  rw [String.data_append, hdecomp, List.append_assoc]
  exact List.prefix_append _ _

/-- A log list headed by a fallback log trips the guard. -/
theorem hasFallback_cons_fallback (attempted : List String) (name : String)
    (rest : List RetrievalLog) :
    hasFallbackRoutingLog (mk_fallback_log attempted name :: rest) = true := by
  simp only [hasFallbackRoutingLog, List.any_cons, Bool.or_eq_true]
  left
  rw [Bool.and_eq_true]
  exact ⟨rfl, fallback_title_contains attempted name⟩

/-- The terminal error response does not trip the guard (its single log
is routing-typed but titled `"All agents failed"`). -/
theorem hasFallback_error_response (attempted : List String) :
    hasFallbackRoutingLog (error_response attempted).logs = false :=
  rfl

/-- After the fallback executor and `_add_routing_log`, the response's
log list is non-empty and headed by a routing-typed log, for any chain of
worker outcomes and any attempted prefix. -/
theorem exec_add_routing_head (chain : List (String × StrategyOutcome))
    (analysis : Analysis) (target : String) (acc : List String)
    (h : ∀ p ∈ chain, ok_no_fallback p.2 = true) :
    (add_routing_log (execute_with_fallback chain acc) analysis target).logs ≠ []
  ∧ ((add_routing_log (execute_with_fallback chain acc) analysis
        target).logs.head?).map RetrievalLog.type = some .routing := by
  induction chain generalizing acc with
  | nil =>
    rw [execute_with_fallback, add_routing_log,
      if_neg (by simp [hasFallback_error_response acc])]
    exact ⟨by simp, rfl⟩
  | cons p rest ih =>
    obtain ⟨name, o⟩ := p
    cases o with
    | ok r =>
      have hr : hasFallbackRoutingLog r.logs = false := by
        have := h (name, .ok r) (by simp)
        simpa [ok_no_fallback] using this
      cases hacc : acc.isEmpty with
      | true =>
        rw [execute_with_fallback]
        simp only [hacc, if_true]
        rw [add_routing_log, if_neg (by simp [hr])]
        exact ⟨by simp, rfl⟩
      | false =>
        rw [execute_with_fallback]
        simp only [hacc, Bool.false_eq_true, if_false]
        rw [add_routing_log,
          if_pos (show hasFallbackRoutingLog _ = true from
            hasFallback_cons_fallback acc name r.logs)]
        exact ⟨by simp, rfl⟩
    | fail =>
      rw [execute_with_fallback]
      exact ih (acc ++ [name]) fun q hq => h q (List.mem_cons_of_mem _ hq)

/-- Claim C6: on every route the final response has a non-empty log list
whose first entry is routing-typed — for every fallback chain of worker
outcomes (covering first-try success, fallback success and total chain
exhaustion), given that worker-built responses carry no fallback routing
log, which holds of every worker builder; and for guide mode. -/
theorem logs_head_routing_invariant :
    (∀ chain analysis target,
      (∀ p ∈ chain, ok_no_fallback p.2 = true) →
      (add_routing_log (execute_with_fallback chain []) analysis target).logs ≠ []
      ∧ ((add_routing_log (execute_with_fallback chain []) analysis
            target).logs.head?).map RetrievalLog.type = some .routing)
  ∧ (∀ result llmLatency totalLatency,
      ok_no_fallback (.ok (direct_response result llmLatency totalLatency)) = true)
  ∧ (∀ results result retrievalLatency totalLatency,
      ok_no_fallback (.ok (rag_response results result retrievalLatency totalLatency)) = true)
  ∧ (∀ payload similarity totalLatency cacheLatency intent,
      ok_no_fallback (.ok (cag_hit_response payload similarity totalLatency
        cacheLatency intent)) = true)
  ∧ (∀ results result totalLatency cacheLatency retrievalLatency intent,
      ok_no_fallback (.ok (cag_miss_response results result totalLatency cacheLatency
        retrievalLatency intent)) = true)
  ∧ (∀ ragResponse cachedPayload cacheSimilarity result cacheLatency totalLatency,
      ok_no_fallback (.ok (hybrid_response ragResponse cachedPayload cacheSimilarity
        result cacheLatency totalLatency)) = true)
  ∧ (∀ analysis result,
      (guide_response analysis result).logs ≠ []
      ∧ ((guide_response analysis result).logs.head?).map RetrievalLog.type
          = some .routing) := by
  refine ⟨fun chain analysis target h => exec_add_routing_head chain analysis target [] h,
    fun _ _ _ => rfl, fun _ _ _ _ => rfl, fun _ _ _ _ _ => rfl, fun _ _ _ _ _ _ => rfl,
    ?_, fun _ _ => ⟨by simp [guide_response], rfl⟩⟩
  intro ragResponse cachedPayload cacheSimilarity result cacheLatency totalLatency
  simp only [ok_no_fallback, Bool.not_eq_true']
  rw [hybrid_response]
  simp only [hybrid_logs, hasFallbackRoutingLog]
  rw [List.any_eq_false]
  intro log hlog
  rcases List.mem_append.mp hlog with hmem | hmem
  · have hdec := List.of_mem_filter hmem
    have htype : log.type = LogType.vector_search := of_decide_eq_true hdec
    simp [htype]
  · have hlog1 : log = hybrid_cache_log cachedPayload cacheSimilarity cacheLatency
        (hybrid_cache_chunks (hybrid_rag_chunks ragResponse).length cachedPayload
          cacheSimilarity) := by
      simpa using hmem
    subst hlog1
    cases cachedPayload <;> simp [hybrid_cache_log]

/-- Witness for C6: a one-member chain holding a concrete Direct-agent
response. -/
theorem logs_head_routing_invariant_witness :
    (∀ p ∈ [("direct", StrategyOutcome.ok (direct_response
        { content := "hi", model := "m", tokens_input := 1, tokens_output := 1, cost := 0 }
        1 2))], ok_no_fallback p.2 = true)
  ∧ (add_routing_log (execute_with_fallback
        [("direct", StrategyOutcome.ok (direct_response
          { content := "hi", model := "m", tokens_input := 1, tokens_output := 1, cost := 0 }
          1 2))] [])
        { intent := "SIMPLE_CHAT", confidence := 1/2, reasoning := "r" } "direct").logs ≠ [] :=
  ⟨by decide,
   ((logs_head_routing_invariant).1
      [("direct", StrategyOutcome.ok (direct_response
        { content := "hi", model := "m", tokens_input := 1, tokens_output := 1, cost := 0 }
        1 2))]
      { intent := "SIMPLE_CHAT", confidence := 1/2, reasoning := "r" } "direct"
      (by decide)).1⟩

/-- Claim C9, evaluated at a failing input: with RAG chunks `[A, B]`
where `B` outranks `A`, and a cache hit of similarity 1, the merged
chunks are de-duplicated and ranked as claimed (`[B, cache, A]` — the
ranking is computed by the source), but the context handed to the
completion call enumerates the raw RAG chunk list — insight, then `A`
before `B` — not the ranked merged chunks, so it differs from the
spec-described context. -/
theorem hybrid_context_order_bug :
    rank_chunks (deduplicate_sources [chunkA, chunkB]
        (hybrid_cache_chunks 2 (some cachePayloadSample) 1))
      = [chunkB, (hybrid_cache_chunks 2 (some cachePayloadSample) 1).headD chunkA, chunkA]
  ∧ hybrid_context_parts [chunkA, chunkB]
        (hybrid_cache_chunks 2 (some cachePayloadSample) 1) 1
      = ["Cached Insight (similarity: " ++ fmt2 1 ++ "):\n" ++ cachePayloadSample.message,
         doc_context_entry 0 chunkA, doc_context_entry 1 chunkB]
  ∧ hybrid_context_parts [chunkA, chunkB]
        (hybrid_cache_chunks 2 (some cachePayloadSample) 1) 1
      ≠ hybrid_context_parts_spec [chunkA, chunkB]
          (hybrid_cache_chunks 2 (some cachePayloadSample) 1) 1 := by
  refine ⟨by decide, rfl, ?_⟩
  intro heq
  have hlen := congrArg List.length heq
  simp [hybrid_context_parts, hybrid_context_parts_spec, hybrid_cache_chunks,
    deduplicate_sources, dedup_go, dedup_key, rank_chunks, chunkA, chunkB,
    cachePayloadSample, List.insertionSort, List.orderedInsert] at hlen
  norm_num at hlen

/-- Claim C10: the classifier's parse step strips a single leading
fenced code block if present (with an optional `json` tag) and attempts
a JSON parse on the processed content; on parse failure it substitutes —
never propagates — the default analysis with intent `DOMAIN_QUESTION`
and confidence 0.5; on success it returns the parsed analysis.  The last
conjunct evaluates the fence-stripping on a concrete fenced content. -/
theorem analyse_parse_fallback_spec (jsonParse : String → Option Analysis) (content : String) :
    (jsonParse (parse_analysis_content content) = Option.none →
      analyse_query_parse jsonParse content = default_analysis
      ∧ default_analysis.intent = "DOMAIN_QUESTION"
      ∧ default_analysis.confidence = 1/2)
  ∧ (∀ a, jsonParse (parse_analysis_content content) = some a →
      analyse_query_parse jsonParse content = a)
  ∧ (startsWithStr (trimStr content) "```" = false →
      parse_analysis_content content = trimStr content)
  ∧ parse_analysis_content " ```json\n\x7b \x7d\n``` " = "\x7b \x7d" := by
  refine ⟨?_, ?_, ?_, by decide⟩
  · intro h
    exact ⟨by simp [analyse_query_parse, h], rfl, rfl⟩
  · intro a h
    simp [analyse_query_parse, h]
  · intro h
    simp [parse_analysis_content, h]

/-- Witness for C10: a parser that always fails yields the default
analysis. -/
theorem analyse_parse_fallback_spec_witness :
    (fun _ : String => (Option.none : Option Analysis)) (parse_analysis_content "not json")
      = Option.none
  ∧ analyse_query_parse (fun _ => Option.none) "not json" = default_analysis :=
  ⟨rfl, ((analyse_parse_fallback_spec (fun _ => Option.none) "not json").1 rfl).1⟩

/-- A self inner product is a sum of squares, hence nonnegative. -/
theorem dotP_self_nonneg (a : List ℝ) : 0 ≤ dotP a a := by
  induction a with
  | nil => simp [dotP]
  | cons x l ih =>
    have hx : 0 ≤ x * x := mul_self_nonneg x
    simpa [dotP, List.zipWith, List.sum_cons] using add_nonneg hx ih

/-- Cosine similarity of a vector with itself is 1 (for a nonzero
vector). -/
theorem cosine_self (a : List ℝ) (h : 0 < dotP a a) : cosine_similarity a a = 1 := by
  unfold cosine_similarity normP
  rw [Real.mul_self_sqrt (le_of_lt h)]
  exact div_self (ne_of_gt h)

/-- Claim C7: `get` scans the stored entries in order — when every entry
scores below the threshold it returns `(none, 0.0)`; the first entry at
or above the threshold is returned with its similarity; and after `set`
with some embedding, a `get` with the identical embedding and a
threshold at most 1 returns the stored payload with similarity exactly
1, since cosine similarity of identical (nonzero) vectors is 1. -/
theorem cache_get_first_match_spec :
    (∀ (store : List CacheEntry) (q : List ℝ) (t : ℝ),
      (∀ e ∈ store, cosine_similarity e.embedding q < t) →
      cache_get store q t = (Option.none, 0))
  ∧ (∀ (pre : List CacheEntry) (e : CacheEntry) (post : List CacheEntry) (q : List ℝ) (t : ℝ),
      (∀ e' ∈ pre, cosine_similarity e'.embedding q < t) →
      cosine_similarity e.embedding q ≥ t →
      cache_get (pre ++ e :: post) q t = (some e.payload, cosine_similarity e.embedding q))
  ∧ (∀ (store : List CacheEntry) (emb : List ℝ) (payload : CachePayload) (t : ℝ),
      t ≤ 1 → 0 < dotP emb emb →
      cache_get (cache_set store emb payload) emb t = (some payload, 1)) := by
  refine ⟨?_, ?_, ?_⟩
  · intro store q t h
    induction store with
    | nil => rw [cache_get]
    | cons e rest ih =>
      rw [cache_get, if_neg (not_le.mpr (h e (by simp)))]
      exact ih fun e' he' => h e' (List.mem_cons_of_mem _ he')
  · intro pre e post q t hpre hge
    induction pre with
    | nil =>
      rw [List.nil_append, cache_get, if_pos hge]
    | cons p pre' ih =>
      rw [List.cons_append, cache_get, if_neg (not_le.mpr (hpre p (by simp)))]
      exact ih fun e' he' => hpre e' (List.mem_cons_of_mem _ he')
  · intro store emb payload t ht hd
    have hset : cache_set store emb payload
        = { embedding := emb, payload := payload } :: List.take 999 store := rfl
    rw [hset, cache_get]
    simp only [cosine_self emb hd]
    rw [if_pos (show (1:ℝ) ≥ t from ht)]

/-- Witness for C7: a singleton store holding the vector `[1]`. -/
theorem cache_get_first_match_spec_witness :
    ((1:ℝ) ≤ 1) ∧ (0 < dotP [1] [1])
  ∧ cache_get (cache_set [] [1] cachePayloadSample) [1] 1 = (some cachePayloadSample, 1) :=
  ⟨le_refl 1, by norm_num [dotP],
   (cache_get_first_match_spec).2.2 [] [1] cachePayloadSample 1 (le_refl 1)
     (by norm_num [dotP])⟩

/-- Trimming to `n` absorbs an inner trim of the appended suffix. -/
theorem take_append_take {α : Type} (n : ℕ) (x y : List α) :
    (x ++ y.take n).take n = (x ++ y).take n := by
  rw [List.take_append_eq_append_take, List.take_append_eq_append_take, List.take_take,
    Nat.min_eq_left (Nat.sub_le n x.length)]

/-- Folding `cache_set` over an index list builds the reversed entry
list, trimmed to 1000. -/
theorem foldl_cache_set (f : ℕ → List ℝ × CachePayload) (l : List ℕ)
    (s : List CacheEntry) (hs : s.length ≤ 1000) :
    l.foldl (fun s i => cache_set s (f i).1 (f i).2) s
      = ((l.reverse.map fun i =>
          ({ embedding := (f i).1, payload := (f i).2 } : CacheEntry)) ++ s).take 1000 := by
  induction l generalizing s with
  | nil =>
    simp [List.take_of_length_le hs]
  | cons i l ih =>
    rw [List.foldl_cons, ih _ (by simp [cache_set])]
    rw [show cache_set s (f i).1 (f i).2
        = (({ embedding := (f i).1, payload := (f i).2 } : CacheEntry) :: s).take 1000 from rfl]
    rw [take_append_take]
    simp [List.reverse_cons, List.map_append, List.append_assoc]

/-- After 1001 inserts into an empty store, the store holds exactly the
entries of the last 1000 inserts, newest first — the first insert has
been evicted. -/
theorem insert_all_1001 (f : ℕ → List ℝ × CachePayload) :
    insert_all f 1001
      = ((List.range 1000).map fun i =>
          ({ embedding := (f (i+1)).1, payload := (f (i+1)).2 } : CacheEntry)).reverse := by
  rw [insert_all, foldl_cache_set f _ [] (by simp), List.append_nil]
  have h1001 : (1001 : ℕ) = 1000 + 1 := rfl
  rw [h1001, List.range_succ_eq_map, List.reverse_cons, List.map_append, List.map_reverse,
    List.map_map]
  rw [List.take_left' (by simp)]
  rfl

/-- `get` only ever returns the payload of a stored entry. -/
theorem cache_get_mem (store : List CacheEntry) (q : List ℝ) (t : ℝ)
    (pay : CachePayload) (s : ℝ) (h : cache_get store q t = (some pay, s)) :
    ∃ e ∈ store, e.payload = pay := by
  induction store with
  | nil =>
    rw [cache_get] at h
    simp at h
  | cons e rest ih =>
    rw [cache_get] at h
    by_cases hc : cosine_similarity e.embedding q ≥ t
    · rw [if_pos hc] at h
      exact ⟨e, by simp, Option.some.inj (Prod.ext_iff.mp h).1⟩
    · rw [if_neg hc] at h
      obtain ⟨e', he', hp⟩ := ih h
      exact ⟨e', List.mem_cons_of_mem _ he', hp⟩

/-- Claim C8: `set` pushes the new entry to the front and trims the
store to at most 1000 entries, so the store never exceeds 1000; after
inserting 1001 entries (with payloads distinct from the first) into an
initially empty store, the store holds exactly 1000 entries and the
first-inserted payload can no longer be returned by any `get`. -/
theorem cache_set_eviction_spec (f : ℕ → List ℝ × CachePayload)
    (hdist : ∀ i, 1 ≤ i → i ≤ 1000 → (f i).2 ≠ (f 0).2) :
    (∀ store emb payload, (cache_set store emb payload).length ≤ 1000)
  ∧ (∀ store emb payload, (cache_set store emb payload).head?
      = some { embedding := emb, payload := payload })
  ∧ (insert_all f 1001).length = 1000
  ∧ (∀ (q : List ℝ) (t : ℝ) (pay : CachePayload) (s : ℝ),
      cache_get (insert_all f 1001) q t = (some pay, s) → pay ≠ (f 0).2) := by
  refine ⟨?_, ?_, ?_, ?_⟩
  · intro store emb payload
    simp [cache_set]
  · intro store emb payload
    rfl
  · rw [insert_all_1001]
    simp
  · intro q t pay s h hbad
    obtain ⟨e, he, hp⟩ := cache_get_mem _ _ _ _ _ h
    rw [insert_all_1001, List.mem_reverse] at he
    obtain ⟨i, hi, hei⟩ := List.mem_map.mp he
    have hlt : i < 1000 := List.mem_range.mp hi
    have hpay : e.payload = (f (i+1)).2 := by rw [← hei]
    exact hdist (i+1) (by omega) (by omega) (by rw [← hpay, hp, hbad])

/-- Witness for C8: after 1001 inserts of `evictSeq` the store length is
exactly 1000; the distinctness hypothesis is discharged at `evictSeq`. -/
theorem cache_set_eviction_spec_witness :
    (evictSeq 1).2 ≠ (evictSeq 0).2
  ∧ (insert_all evictSeq 1001).length = 1000 := by
  have hdist : ∀ i, 1 ≤ i → i ≤ 1000 → (evictSeq i).2 ≠ (evictSeq 0).2 := by
    intro i h1 h2
    simp only [evictSeq, ne_eq, CachePayload.mk.injEq]
    intro hconj
    have hcast : (i : ℚ) = ((0 : ℕ) : ℚ) := by exact_mod_cast hconj.2.2.2.2
    have : i = 0 := Nat.cast_injective hcast
    omega
  exact ⟨hdist 1 le_rfl (by omega), (cache_set_eviction_spec evictSeq hdist).2.2.1⟩

end OrchestratAI
